import Mathlib

/-!
Verification of the GitCanvas repository: a shallow embedding of
`src/utils/github_utils.py`, `src/generators/lang_card.py` and
`src/roast_widget_streamlit.py`, with theorems settling the spec claims.

Network calls are modelled by explicit environment values describing the
outcome of each HTTP request (exception raised / status code / parse result);
Python `None` and absent dictionary keys are modelled with `Option`;
Python exceptions escaping a function are modelled with `Except`.
-/

namespace GitCanvas

/-- A Python runtime value as far as the language-card code path needs:
an `int` or a `str`.  Needed because tuple-unpacking a dict produces its
key strings, which then flow into arithmetic. -/
inductive PyVal where
  | int (n : Int)
  | str (s : String)
deriving DecidableEq

/-- One element of a `top_languages` list as it exists at Python runtime:
either a 2-tuple `(name, count)` (the shape `draw_lang_card`'s loops assume;
the count slot holds whatever value the tuple carried) or the dict
`{"name": name, "count": count}` (the shape `fetch_github_stats` builds). -/
inductive LangEntry where
  | pair (name : String) (count : PyVal)
  | dict (name : String) (count : Int)
deriving DecidableEq

/-- Python tuple-unpacking `lang, count = entry`.  Unpacking a 2-tuple yields
its components; unpacking a 2-key dict iterates the dict, which yields its
KEYS in insertion order — here the literal strings `"name"` and `"count"`
(the stored name and count values are lost). -/
def LangEntry.unpack : LangEntry → String × PyVal
  | .pair n v => (n, v)
  | .dict _ _ => ("name", .str "count")

/-- Python `sum(...)` over the unpacked count slots, started from `0`.
`int + int` accumulates; `int + str` raises `TypeError`, which the renderer
does not catch. -/
def pySum (acc : Int) : List PyVal → Except String Int
  | [] => .ok acc
  | .int n :: vs => pySum (acc + n) vs
  | .str _ :: _ => .error "TypeError: unsupported operand type(s) for +: int and str"

/-- One rendered language row of the card: label text, percentage
(`(count / total_usage) * 100`, Python true division modelled in `ℚ`) and
the fill-bar width `(pct / 100) * (width - 40)`. -/
structure Row where
  name : String
  pct : ℚ
  fillWidth : ℚ
deriving DecidableEq

/-- The drawing produced by `draw_lang_card`: the viewBox is
`0 0 width height`; `rows` lists the per-language drawing group in order;
`theme` is the resolved style mapping (colours and fonts, not claim-relevant
beyond being resolved). -/
structure Svg where
  width : Int
  height : Int
  theme : List (String × String)
  rows : List Row
deriving DecidableEq

/-- Modelled from the spec: `THEMES` of `themes/styles.py` is not under
`src/`.  Per §3, a Theme Record is "a mapping from style-attribute name
(background color, border color, title color, text color, font family, font
sizes) to value; looked up from a fixed set of named presets".  Attribute
values are opaque strings; only the lookup/merge structure is modelled. -/
def THEMES : List (String × List (String × String)) :=
  [("Default",
    [("bg_color", "default-bg"), ("border_color", "default-border"),
     ("title_color", "default-title"), ("text_color", "default-text"),
     ("title_font_size", "default-title-size"),
     ("text_font_size", "default-text-size"),
     ("font_family", "default-font")])]

/-- Python `d[k] = v` on an insertion-ordered dict: overwrite in place if the
key exists, else append. -/
def dictSet : List (String × String) → String → String → List (String × String)
  | [], k, v => [(k, v)]
  | kv :: rest, k, v =>
      if kv.1 = k then (k, v) :: rest else kv :: dictSet rest k v

/-- Python `base.update(upd)`: last write wins, key order preserved. -/
def dictUpdate (base upd : List (String × String)) : List (String × String) :=
  upd.foldl (fun acc kv => dictSet acc kv.1 kv.2) base

/-- Theme resolution `THEMES.get(theme_name, THEMES["Default"]).copy()` followed by
`theme.update(custom_colors)` when overrides are supplied. -/
def themeResolve (theme_name : String)
    (custom_colors : Option (List (String × String))) : List (String × String) :=
  let base :=
    match THEMES.find? (fun kv => kv.1 == theme_name) with
    | some kv => kv.2
    | none => ((THEMES.find? (fun kv => kv.1 == "Default")).map (fun kv => kv.2)).getD []
  match custom_colors with
  | some cc => dictUpdate base cc
  | none => base

/-- Python `str.lower()` — ASCII case folding, which covers every string the
claims involve (language names, exclusion entries). -/
def pyLower (s : String) : String := ⟨s.data.map Char.toLower⟩

/-- The argument `data` of `draw_lang_card`: the renderer only reads
`data.get("top_languages", [])`; an absent key is modelled as `[]`. -/
structure CardData where
  top_languages : List LangEntry
deriving DecidableEq

/-- The exclusion step of `draw_lang_card` (lines 22-31): guarded by Python
truthiness of both `excluded_languages` and `langs`; the list comprehension
unpacks each entry, keeps it when its lowercased name is not among the
lowercased exclusions, and rebuilds it as a tuple of the unpacked parts. -/
def applyExclusion (excluded_languages : Option (List String)) :
    List LangEntry → List LangEntry := fun langs =>
  match excluded_languages with
  | none => langs
  | some excl =>
      if excl ≠ [] ∧ langs ≠ [] then
        langs.filterMap fun e =>
          if (excl.map pyLower).contains (pyLower e.unpack.1) then none
          else some (.pair e.unpack.1 e.unpack.2)
      else langs

/-- The per-row loop of `draw_lang_card`: `pct = (count / total_usage) * 100`
(`TypeError` if the unpacked count slot holds a string),
`fill_width = (pct / 100) * bar_width` with `bar_width = 300 - 40`. -/
def rowOf (total : Int) (e : LangEntry) : Except String Row :=
  match e.unpack with
  | (lang, .int count) =>
      let pct : ℚ := ((count : ℚ) / (total : ℚ)) * 100
      .ok { name := lang, pct := pct, fillWidth := (pct / 100) * 260 }
  | (_, .str _) =>
      .error "TypeError: unsupported operand type(s) for /: str and int"

/-- The `for i, (lang, count) in enumerate(langs)` loop, row by row. -/
def buildRows (total : Int) : List LangEntry → Except String (List Row)
  | [] => .ok []
  | e :: es =>
      match rowOf total e with
      | .error msg => .error msg
      | .ok row =>
          match buildRows total es with
          | .error msg => .error msg
          | .ok rows => .ok (row :: rows)

/-- Model of `draw_lang_card(data, theme_name="Default", custom_colors=None,
excluded_languages=None)` of `src/generators/lang_card.py`.  Theme resolution,
exclusion filtering, `("No Data", 0)` placeholder substitution,
`height = 40 + len(langs)*35 + 10`, `total_usage = sum(...)` with the
`total_usage == 0 → 1` guard, then the row loop; an uncaught Python exception
is the `.error` case. -/
def draw_lang_card (data : CardData) (theme_name : String := "Default")
    (custom_colors : Option (List (String × String)) := none)
    (excluded_languages : Option (List String) := none) : Except String Svg :=
  let theme := themeResolve theme_name custom_colors
  let langs := applyExclusion excluded_languages data.top_languages
  let langs := if langs = [] then [.pair "No Data" (.int 0)] else langs
  let height : Int := 40 + (langs.length : Int) * 35 + 10
  match pySum 0 (langs.map fun e => e.unpack.2) with
  | .error msg => .error msg
  | .ok total0 =>
      let total := if total0 = 0 then 1 else total0
      match buildRows total langs with
      | .error msg => .error msg
      | .ok rows => .ok { width := 300, height := height, theme := theme, rows := rows }

/-! ## Stats Fetcher (`src/utils/github_utils.py`) -/

/-- One element of the REST repositories payload, as read by the fetcher:
`repo.get('language')`, `repo.get('fork')`, `repo.get('size', 0)`.  `none`
models an absent key (or JSON `null`). -/
structure Repo where
  language : Option String := none
  fork : Option Bool := none
  size : Option Int := none
deriving DecidableEq

/-- Python truthiness of `repo.get('language')`: `None` and `""` are falsy. -/
def pyTruthyOptStr : Option String → Bool
  | none => false
  | some s => s ≠ ""

/-- Python truthiness of `repo.get('fork')`: `None` and `False` are falsy. -/
def pyTruthyOptBool : Option Bool → Bool
  | none => false
  | some b => b

/-- Counter update `Counter[key] += 1` on an insertion-ordered counter: increment in place
if the key exists, else append with count 1. -/
def counterAdd : List (String × Int) → String → List (String × Int)
  | [], k => [(k, 1)]
  | kv :: rest, k =>
      if kv.1 = k then (kv.1, kv.2 + 1) :: rest else kv :: counterAdd rest k

/-- The body of `for repo in repos[:30]`: count the repository's language
when truthy, and for non-forks accumulate `repo.get('size', 0) // 10`
(Python `//` is floor division, `Int.fdiv`). -/
def scanStep (acc : List (String × Int) × Int) (repo : Repo) :
    List (String × Int) × Int :=
  let counts :=
    match repo.language with
    | some lang => if lang ≠ "" then counterAdd acc.1 lang else acc.1
    | none => acc.1
  let est :=
    if pyTruthyOptBool repo.fork then acc.2
    else acc.2 + Int.fdiv (repo.size.getD 0) 10
  (counts, est)

/-- Ordering used by `Counter.most_common`: larger count first. -/
def countGe (a b : String × Int) : Prop := b.2 ≤ a.2

instance : DecidableRel countGe := fun a b => inferInstanceAs (Decidable (b.2 ≤ a.2))

instance : IsTotal (String × Int) countGe := ⟨fun a b => le_total b.2 a.2⟩

instance : IsTrans (String × Int) countGe := ⟨fun _ _ _ h1 h2 => le_trans h2 h1⟩

/-- Model of `Counter.most_common(n)`: CPython documents it as equivalent to the
stable sort of the counter's items by count, largest first, truncated to `n`
(ties keep first-insertion order; `List.insertionSort` is the stable sort
with that comparator). -/
def most_common (n : Nat) (counts : List (String × Int)) : List (String × Int) :=
  (List.insertionSort countGe counts).take n

/-- The fields the fetcher reads from the `GET /users/{username}` JSON body;
`none` models an absent key or JSON `null`. -/
structure UserData where
  login : Option String := none
  name : Option String := none
  bio : Option String := none
  public_repos : Option Int := none
  followers : Option Int := none
  following : Option Int := none
  avatar_url : Option String := none
  created_at : Option String := none
deriving DecidableEq

/-- Python `a or b` on optional strings: `None` and `""` are falsy. -/
def pyOr (a b : Option String) : Option String :=
  match a with
  | some s => if s = "" then b else some s
  | none => b

/-- The Profile Record dictionary.  For `followers`, `following` and
`created_at`, `none` models the KEY BEING ABSENT from the returned dict
(the graph-query path does not emit them); the REST path always emits them. -/
structure ProfileData where
  username : Option String
  name : Option String
  bio : Option String
  public_repos : Int
  followers : Option Int
  following : Option Int
  avatar_url : Option String
  created_at : Option String
  top_languages : List (String × Int)
  total_commits : Int
deriving DecidableEq

/-- The pure part of `fetch_github_stats` after both HTTP bodies are in hand
(lines 51-84): scan the first 30 repos, take the 5 most common languages,
and build the profile dict field by field. -/
def buildProfile (user : UserData) (repos : List Repo) : ProfileData :=
  let scanned := (repos.take 30).foldl scanStep ([], 0)
  { username := user.login
    name := pyOr user.name user.login
    bio := user.bio
    public_repos := user.public_repos.getD 0
    followers := some (user.followers.getD 0)
    following := some (user.following.getD 0)
    avatar_url := user.avatar_url
    created_at := user.created_at
    top_languages := most_common 5 scanned.1
    total_commits := max scanned.2 (user.public_repos.getD 0 * 5) }

instance {ε α : Type} [DecidableEq ε] [DecidableEq α] : DecidableEq (Except ε α) := fun
  | .ok a, .ok b => decidable_of_iff (a = b) (by simp)
  | .ok _, .error _ => isFalse (by simp)
  | .error _, .ok _ => isFalse (by simp)
  | .error e, .error f => decidable_of_iff (e = f) (by simp)

/-- Outcome of one `requests` call: the call raised
(`requests.get`/`requests.post` exception), or returned a response with a
status code whose `.json()` either parses to `α` or raises. -/
inductive HttpResult (α : Type) where
  | exn
  | resp (status : Int) (body : Except Unit α)
deriving DecidableEq

/-- The two REST calls `fetch_github_stats` makes. -/
structure RestEnv where
  userCall : HttpResult UserData
  reposCall : HttpResult (List Repo)
deriving DecidableEq

/-- Model of `fetch_github_stats(username)`: the whole body sits in one
`try/except` returning `None`.  Non-200 on the user call → `None`; non-200
on the repos call → proceed with `repos = []`; any raised exception
(either `requests.get`, or either `.json()`) propagates to the `except`
and yields `None`. -/
def fetch_github_stats (env : RestEnv) : Option ProfileData :=
  match env.userCall with
  | .exn => none
  | .resp status body =>
      if status ≠ 200 then none
      else
        match body with
        | .error _ => none
        | .ok user =>
            match env.reposCall with
            | .exn => none
            | .resp status2 body2 =>
                if status2 ≠ 200 then some (buildProfile user [])
                else
                  match body2 with
                  | .error _ => none
                  | .ok repos => some (buildProfile user repos)

/-- One node of the GraphQL `repositories.nodes` list:
`repo.get('primaryLanguage')` is `null` or `{name: ...}`. -/
structure GqlRepo where
  primaryLanguage : Option String := none
deriving DecidableEq

/-- The fields `fetch_github_stats_detailed` reads from
`data['data']['user']`. -/
structure GqlUser where
  login : String
  name : Option String := none
  bio : Option String := none
  avatarUrl : Option String := none
  repos_totalCount : Int := 0
  repos_nodes : List GqlRepo := []
  totalCommitContributions : Int := 0
deriving DecidableEq

/-- The parsed GraphQL response body: whether an `errors` key is present,
and `data['data']['user']` (`none` models a `null` user, on which the
subsequent subscript raises and falls into the `except`). -/
structure GqlResponse where
  hasErrors : Bool
  user : Option GqlUser
deriving DecidableEq

/-- The language Counter of the detailed path: every node whose
`primaryLanguage` is truthy (a non-null dict) contributes its name. -/
def gqlCounts (nodes : List GqlRepo) : List (String × Int) :=
  nodes.foldl
    (fun acc r =>
      match r.primaryLanguage with
      | some lang => counterAdd acc lang
      | none => acc)
    []

/-- The dict returned on the GraphQL success path (lines 177-185): exactly
seven keys — no `followers`, `following` or `created_at` key is emitted. -/
def gqlBuild (user : GqlUser) : ProfileData :=
  { username := some user.login
    name := pyOr user.name (some user.login)
    bio := user.bio
    public_repos := user.repos_totalCount
    followers := none
    following := none
    avatar_url := user.avatarUrl
    created_at := none
    top_languages := most_common 5 (gqlCounts user.repos_nodes)
    total_commits := user.totalCommitContributions }

/-- Model of `fetch_github_stats_detailed(username, github_token)`: falsy token →
REST path directly; otherwise POST the GraphQL query and fall back to the
REST path on a raised exception, non-200 status, `.json()` failure, an
`errors` key, or a `null` user (whose subscripting raises into the
`except`). -/
def fetch_github_stats_detailed (github_token : Option String)
    (gqlCall : HttpResult GqlResponse) (restEnv : RestEnv) : Option ProfileData :=
  if ¬ pyTruthyOptStr github_token then fetch_github_stats restEnv
  else
    match gqlCall with
    | .exn => fetch_github_stats restEnv
    | .resp status body =>
        if status ≠ 200 then fetch_github_stats restEnv
        else
          match body with
          | .error _ => fetch_github_stats restEnv
          | .ok data =>
              if data.hasErrors then fetch_github_stats restEnv
              else
                match data.user with
                | none => fetch_github_stats restEnv
                | some user => some (gqlBuild user)

/-! ## Roast Widget (`src/roast_widget_streamlit.py`) -/

/-- Outcome of calling a Python function that may raise. -/
inductive PyResult (α : Type) where
  | ok (a : α)
  | exn
deriving DecidableEq

/-- The dict returned by the roast collaborator `generate_profile_roast`. -/
structure RoastResult where
  roast : String
  source : String
deriving DecidableEq

/-- The cached session record `st.session_state.roast_data`. -/
structure RoastData where
  roast : String
  profile : ProfileData
  source : String
deriving DecidableEq

/-- The "Generate Roast" button handler of `render_roast_widget`
(lines 90-107): fetch; absent profile → `st.error`, state untouched; any
exception from the fetch or the roast generation is caught at the handler
and shown via `st.error`, state untouched; on success the session record is
replaced wholesale.  Returns the new cached state and whether an error
message was shown. -/
def generateAction (prev : Option RoastData)
    (fetchResult : PyResult (Option ProfileData))
    (roastOf : ProfileData → PyResult RoastResult) : Option RoastData × Bool :=
  match fetchResult with
  | .exn => (prev, true)
  | .ok none => (prev, true)
  | .ok (some profile) =>
      match roastOf profile with
      | .exn => (prev, true)
      | .ok r =>
          (some { roast := r.roast, profile := profile, source := r.source }, false)

/-! ## Derived forms used to state the renderer claims -/

/-- A `(name, count)` language list in the tuple shape the renderer's loops
assume (spec §4.2 input contract), as runtime entries. -/
def toEntries (l : List (String × Int)) : List LangEntry :=
  l.map fun p => .pair p.1 (.int p.2)

/-- The `top_languages` of a fetched Profile Record, as the renderer receives it:
the fetcher stores each entry as the dict `{"name": ..., "count": ...}`. -/
def profileToCardData (p : ProfileData) : CardData :=
  ⟨p.top_languages.map fun nc => .dict nc.1 nc.2⟩

/-- The exclusion step restricted to tuple-shaped lists. -/
def pyFilterPairs (excl : Option (List String)) (l : List (String × Int)) :
    List (String × Int) :=
  match excl with
  | none => l
  | some ex =>
      if ex ≠ [] ∧ l ≠ [] then
        l.filter fun p => !((ex.map pyLower).contains (pyLower p.1))
      else l

/-- Rows that survive exclusion, after placeholder substitution. -/
def postRows (excl : Option (List String)) (l : List (String × Int)) :
    List (String × Int) :=
  if pyFilterPairs excl l = [] then [("No Data", 0)] else pyFilterPairs excl l

/-- Sum of the counts of a language list. -/
def sumCounts (l : List (String × Int)) : Int :=
  (l.map fun p => p.2).sum

/-- The effective divisor: the post-filter total, with 0 replaced by 1. -/
def effTotal (excl : Option (List String)) (l : List (String × Int)) : Int :=
  if sumCounts (postRows excl l) = 0 then 1 else sumCounts (postRows excl l)

/-- The rows the renderer draws for a tuple-shaped list with divisor
`total`. -/
def pairRows (total : Int) (l : List (String × Int)) : List Row :=
  l.map fun p =>
    let pct : ℚ := ((p.2 : ℚ) / (total : ℚ)) * 100
    { name := p.1, pct := pct, fillWidth := (pct / 100) * 260 }

/-! ## Renderer bridge lemmas -/

theorem toEntries_eq_nil_iff (l : List (String × Int)) :
    toEntries l = [] ↔ l = [] := by
  simp [toEntries]

theorem filterMap_toEntries (ex : List String) (l : List (String × Int)) :
    ((toEntries l).filterMap fun e =>
        if (ex.map pyLower).contains (pyLower e.unpack.1) then none
        else some (.pair e.unpack.1 e.unpack.2))
      = toEntries (l.filter fun p => !((ex.map pyLower).contains (pyLower p.1))) := by
  induction l with
  | nil => rfl
  | cons p rest ih =>
      simp only [toEntries, List.map_cons, List.filterMap_cons, List.filter_cons,
        LangEntry.unpack] at ih ⊢
      cases hc : (ex.map pyLower).contains (pyLower p.1) with
      | true => simpa [hc] using ih
      | false => simpa [hc] using ih

theorem applyExclusion_toEntries (excl : Option (List String))
    (l : List (String × Int)) :
    applyExclusion excl (toEntries l) = toEntries (pyFilterPairs excl l) := by
  cases excl with
  | none => rfl
  | some ex =>
      show (if ex ≠ [] ∧ toEntries l ≠ [] then _ else toEntries l)
        = toEntries (if ex ≠ [] ∧ l ≠ [] then _ else l)
      by_cases hex : ex ≠ [] ∧ l ≠ []
      · have hex' : ex ≠ [] ∧ toEntries l ≠ [] := by
          exact ⟨hex.1, by simpa [toEntries_eq_nil_iff] using hex.2⟩
        rw [if_pos hex', if_pos hex, filterMap_toEntries]
      · have hex' : ¬(ex ≠ [] ∧ toEntries l ≠ []) := by
          simpa [toEntries_eq_nil_iff] using hex
        rw [if_neg hex', if_neg hex]

theorem pySum_toEntries (acc : Int) (l : List (String × Int)) :
    pySum acc ((toEntries l).map fun e => e.unpack.2) = .ok (acc + sumCounts l) := by
  induction l generalizing acc with
  | nil => simp [toEntries, pySum, sumCounts]
  | cons p rest ih =>
      simp only [toEntries, List.map_cons, LangEntry.unpack, pySum] at ih ⊢
      rw [ih]
      simp [sumCounts, add_assoc]

theorem buildRows_toEntries (total : Int) (l : List (String × Int)) :
    buildRows total (toEntries l) = .ok (pairRows total l) := by
  induction l with
  | nil => rfl
  | cons p rest ih =>
      simp only [toEntries, List.map_cons, buildRows, rowOf, LangEntry.unpack] at ih ⊢
      rw [ih]
      rfl

/-- Evaluation of `draw_lang_card` on a tuple-shaped language list: it always
succeeds, with the geometry and rows determined by the post-filter list. -/
theorem draw_lang_card_pairs (l : List (String × Int)) (th : String)
    (cc : Option (List (String × String))) (excl : Option (List String)) :
    draw_lang_card ⟨toEntries l⟩ th cc excl
      = .ok { width := 300
              height := 40 + ((postRows excl l).length : Int) * 35 + 10
              theme := themeResolve th cc
              rows := pairRows (effTotal excl l) (postRows excl l) } := by
  have hplace :
      (if toEntries (pyFilterPairs excl l) = []
        then [LangEntry.pair "No Data" (.int 0)]
        else toEntries (pyFilterPairs excl l)) = toEntries (postRows excl l) := by
    by_cases hf : pyFilterPairs excl l = []
    · simp [postRows, hf, toEntries]
    · simp [postRows, hf, toEntries_eq_nil_iff]
  unfold draw_lang_card
  dsimp only
  rw [applyExclusion_toEntries, hplace, pySum_toEntries, zero_add]
  dsimp only
  rw [buildRows_toEntries]
  simp [effTotal, toEntries, List.length_map]

/-! ## Fetcher lemmas -/

theorem scanStep_est (l : List Repo) (c : List (String × Int)) (e : Int) :
    (l.foldl scanStep (c, e)).2
      = e + ((l.filter fun r => !(pyTruthyOptBool r.fork)).map
          fun r => Int.fdiv (r.size.getD 0) 10).sum := by
  induction l generalizing c e with
  | nil => simp
  | cons r rest ih =>
      rw [List.foldl_cons, ih]
      cases hf : pyTruthyOptBool r.fork
      · simp [scanStep, hf, List.filter_cons, add_assoc]
      · simp [scanStep, hf, List.filter_cons]

theorem most_common_length (n : Nat) (c : List (String × Int)) :
    (most_common n c).length ≤ n := by
  rw [most_common, List.length_take]
  exact min_le_left _ _

theorem most_common_sorted (n : Nat) (c : List (String × Int)) :
    (most_common n c).Pairwise (fun a b => b.2 ≤ a.2) := by
  have h : (List.insertionSort countGe c).Pairwise countGe :=
    List.sorted_insertionSort countGe c
  exact (List.Pairwise.sublist (List.take_sublist n _) h).imp (fun hab => hab)

/-! ## Claims about the Stats Fetcher -/

/-- The user-profile fields of the worked example of spec §8 (`public_repos = 2`). -/
def exUser : UserData := { public_repos := some 2 }

/-- The repository list of the worked example of spec §8. -/
def exRepos : List Repo :=
  [{ language := some "Go", fork := some false, size := some 100 },
   { language := some "Go", fork := some false, size := some 50 },
   { language := some "Python", fork := some true, size := some 40 }]

/-- C3: for every fetched repository list, `total_commits` equals the maximum
of the sum of `size // 10` over the non-fork repositories among the first 30
(absent `size` read as 0) and `public_repos * 5`; and the spec's worked
example evaluates to `top_languages = [("Go", 2), ("Python", 1)]` and
`total_commits = 15`. -/
theorem C3_total_commits_formula :
    (∀ (user : UserData) (repos : List Repo),
        (buildProfile user repos).total_commits
          = max ((((repos.take 30).filter fun r => !(pyTruthyOptBool r.fork)).map
                fun r => Int.fdiv (r.size.getD 0) 10).sum)
              (user.public_repos.getD 0 * 5))
    ∧ (buildProfile exUser exRepos).top_languages = [("Go", 2), ("Python", 1)]
    ∧ (buildProfile exUser exRepos).total_commits = 15 := by
  refine ⟨fun user repos => ?_, by decide, by decide⟩
  unfold buildProfile
  dsimp only
  rw [scanStep_est, zero_add]

/-- C4: on both the REST path and the graph-query path, the produced
`top_languages` has at most 5 entries and its counts are non-increasing. -/
theorem C4_top_languages_invariant :
    ∀ (user : UserData) (repos : List Repo) (guser : GqlUser),
      ((buildProfile user repos).top_languages.length ≤ 5
        ∧ (buildProfile user repos).top_languages.Pairwise (fun a b => b.2 ≤ a.2))
      ∧ ((gqlBuild guser).top_languages.length ≤ 5
        ∧ (gqlBuild guser).top_languages.Pairwise (fun a b => b.2 ≤ a.2)) := by
  intro user repos guser
  unfold buildProfile gqlBuild
  dsimp only
  exact ⟨⟨most_common_length 5 _, most_common_sorted 5 _⟩,
         most_common_length 5 _, most_common_sorted 5 _⟩

/-- A user body for concrete counterexample environments. -/
def u8 : UserData := { login := some "alice", public_repos := some 2 }

/-- C8 counterexample: the user call succeeds but the repositories call
raises a network-level exception.  The claim says every failure of the
repositories call alone yields a Profile Record built from an empty
repository list, but the exception reaches the outer `except` and the
function returns `None`. -/
theorem C8_repos_exception_cex :
    fetch_github_stats ⟨.resp 200 (.ok u8), .exn⟩ = none := by decide

/-- C8 (amended): `fetch_github_stats` is a total function into `Option`
(never raises); it returns absent exactly when the user call raised, had a
non-200 status, or had an unparsable body, or when the repositories call
raised, or returned status 200 with an unparsable body.  A non-200 STATUS on
the repositories call instead yields the record built from the empty
repository list. -/
theorem C8_fetch_error_contract (env : RestEnv) :
    (fetch_github_stats env = none ↔
        (env.userCall = .exn
          ∨ (∃ st b, env.userCall = .resp st b ∧ st ≠ 200)
          ∨ env.userCall = .resp 200 (.error ())
          ∨ (∃ u, env.userCall = .resp 200 (.ok u) ∧ env.reposCall = .exn)
          ∨ (∃ u, env.userCall = .resp 200 (.ok u)
              ∧ env.reposCall = .resp 200 (.error ()))))
    ∧ (∀ u st2 b2, env.userCall = .resp 200 (.ok u) →
        env.reposCall = .resp st2 b2 → st2 ≠ 200 →
        fetch_github_stats env = some (buildProfile u [])) := by
  obtain ⟨uc, rc⟩ := env
  constructor
  · cases uc with
    | exn => simp [fetch_github_stats]
    | resp st b =>
        by_cases hst : st = 200
        · subst hst
          cases b with
          | error e => cases e; simp [fetch_github_stats]
          | ok u =>
              cases rc with
              | exn => simp [fetch_github_stats]
              | resp st2 b2 =>
                  by_cases h2 : st2 = 200
                  · subst h2
                    cases b2 with
                    | error e => cases e; simp [fetch_github_stats]
                    | ok repos => simp [fetch_github_stats]
                  · simp [fetch_github_stats, h2]
        · simp [fetch_github_stats, hst]
  · intro u st2 b2 hu hr h2
    subst hu
    subst hr
    simp [fetch_github_stats, h2]

/-- Witness for C8: a concrete environment whose repositories call returns
status 403, yielding the record built from the empty repository list. -/
theorem C8_fetch_error_contract_witness :
    fetch_github_stats ⟨.resp 200 (.ok u8), .resp 403 (.error ())⟩
      = some (buildProfile u8 []) :=
  (C8_fetch_error_contract ⟨.resp 200 (.ok u8), .resp 403 (.error ())⟩).2
    u8 403 (.error ()) rfl rfl (by decide)

/-- A concrete GraphQL user payload. -/
def gqlUserEx : GqlUser :=
  { login := "carol", repos_totalCount := 3,
    repos_nodes := [{ primaryLanguage := some "Go" }],
    totalCommitContributions := 42 }

/-- C2 counterexample: a fully successful graph-query call (status 200, no
error payload, user present) returns a record whose `followers`, `following`
and `created_at` keys are all absent, contradicting the claim that every §3
Profile Record field is present just as on the REST path. -/
theorem C2_missing_fields_cex :
    (fetch_github_stats_detailed (some "token")
        (.resp 200 (.ok ⟨false, some gqlUserEx⟩)) ⟨.exn, .exn⟩).map
        (fun p => (p.followers, p.following, p.created_at))
      = some (none, none, none) := by decide

/-- C2 (amended): on a successful graph-query call the detailed fetch
returns a record carrying username, display name, bio, avatar URL,
`public_repos` (the repository total count), `top_languages` and the
authoritative `total_commits` — but no `followers`, `following` or
`created_at` key. -/
theorem C2_detailed_success (token : Option String) (rest : RestEnv)
    (user : GqlUser) (htok : pyTruthyOptStr token = true) :
    fetch_github_stats_detailed token (.resp 200 (.ok ⟨false, some user⟩)) rest
      = some (gqlBuild user)
    ∧ (gqlBuild user).username = some user.login
    ∧ (gqlBuild user).public_repos = user.repos_totalCount
    ∧ (gqlBuild user).total_commits = user.totalCommitContributions
    ∧ (gqlBuild user).top_languages = most_common 5 (gqlCounts user.repos_nodes)
    ∧ (gqlBuild user).followers = none
    ∧ (gqlBuild user).following = none
    ∧ (gqlBuild user).created_at = none := by
  refine ⟨?_, rfl, rfl, rfl, rfl, rfl, rfl, rfl⟩
  simp [fetch_github_stats_detailed, htok]

/-- Witness for C2: the amended success shape at a concrete token and
payload. -/
theorem C2_detailed_success_witness :
    fetch_github_stats_detailed (some "token")
        (.resp 200 (.ok ⟨false, some gqlUserEx⟩)) ⟨.exn, .exn⟩
      = some (gqlBuild gqlUserEx) :=
  (C2_detailed_success (some "token") ⟨.exn, .exn⟩ gqlUserEx (by decide)).1

/-- The user and repository payloads of the C1 failing input. -/
def u1 : UserData := { login := some "bob", public_repos := some 1 }

/-- A single non-fork Python repository. -/
def repos1 : List Repo :=
  [{ language := some "Python", fork := some false, size := some 120 }]

/-- C1: the fetcher's record stores each `top_languages` entry as the dict
`{"name": ..., "count": ...}`, but `draw_lang_card` tuple-unpacks each entry,
which yields the dict's key strings; the `sum` over the unpacked count slot
then adds `int` and `str` and raises `TypeError`.  Passing a fetched record
with a non-empty language list to the renderer with default options
therefore fails, contrary to the claim (and to the renderer's own docstring,
which says `data` is the user-stats dict). -/
theorem C1_record_not_consumable :
    fetch_github_stats ⟨.resp 200 (.ok u1), .resp 200 (.ok repos1)⟩
      = some (buildProfile u1 repos1)
    ∧ (buildProfile u1 repos1).top_languages = [("Python", 1)]
    ∧ draw_lang_card (profileToCardData (buildProfile u1 repos1))
      = .error "TypeError: unsupported operand type(s) for +: int and str" := by
  exact ⟨by decide, by decide, by decide⟩

/-! ## Claims about the Roast Widget -/

/-- C9: the generate action leaves the cached session record unchanged and
shows a user-visible error whenever the fetch returns absent, the fetch
raises, or the roast generation raises; the cache is replaced exactly when
the fetch and the roast generation both succeed. -/
theorem C9_generate_cache_contract (prev : Option RoastData)
    (fetchResult : PyResult (Option ProfileData))
    (roastOf : ProfileData → PyResult RoastResult) :
    ((fetchResult = .exn ∨ fetchResult = .ok none
        ∨ (∃ p, fetchResult = .ok (some p) ∧ roastOf p = .exn)) →
      generateAction prev fetchResult roastOf = (prev, true))
    ∧ (∀ p r, fetchResult = .ok (some p) → roastOf p = .ok r →
        generateAction prev fetchResult roastOf
          = (some { roast := r.roast, profile := p, source := r.source }, false)) := by
  constructor
  · rintro (h | h | ⟨p, hp, hr⟩)
    · subst h; rfl
    · subst h; rfl
    · subst hp; simp [generateAction, hr]
  · intro p r hp hr
    subst hp
    simp [generateAction, hr]

/-- A previously cached roast used by the C9 witness. -/
def prev9 : Option RoastData :=
  some { roast := "old roast", profile := buildProfile u8 [], source := "template" }

/-- Witness for C9: an absent fetch result (e.g. HTTP 404) leaves the cached
roast untouched and shows an error. -/
theorem C9_generate_cache_contract_witness :
    generateAction prev9 (.ok none) (fun _ => .exn) = (prev9, true) :=
  (C9_generate_cache_contract prev9 (.ok none) (fun _ => .exn)).1 (Or.inr (Or.inl rfl))

/-! ## Claims about the Card Renderer -/

/-- C5: rendering a tuple-shaped language list never fails, the viewBox
width is the constant 300, and the viewBox height is exactly
`50 + 35 * rowCount`, where `rowCount` counts the rows left after exclusion
filtering and placeholder substitution. -/
theorem C5_height_affine (l : List (String × Int)) (th : String)
    (cc : Option (List (String × String))) (excl : Option (List String)) :
    ∃ svg, draw_lang_card ⟨toEntries l⟩ th cc excl = .ok svg
      ∧ svg.width = 300
      ∧ svg.height = 50 + 35 * ((postRows excl l).length : Int) := by
  refine ⟨_, draw_lang_card_pairs l th cc excl, rfl, ?_⟩
  dsimp only
  ring

/-- C6: the exclusion step removes exactly the pairs whose lowercased name
appears among the lowercased exclusion entries, and when that removal
empties the list the render is the single synthetic `("No Data", 0)` row
at 0%. -/
theorem C6_exclusion_filter (l : List (String × Int)) (excl : List String)
    (th : String) (cc : Option (List (String × String))) :
    pyFilterPairs (some excl) l
        = l.filter (fun p => !((excl.map pyLower).contains (pyLower p.1)))
    ∧ ((l.filter fun p => !((excl.map pyLower).contains (pyLower p.1))) = [] →
        draw_lang_card ⟨toEntries l⟩ th cc (some excl)
          = .ok { width := 300, height := 85, theme := themeResolve th cc,
                  rows := [{ name := "No Data", pct := 0, fillWidth := 0 }] }) := by
  have hfe : pyFilterPairs (some excl) l
      = l.filter (fun p => !((excl.map pyLower).contains (pyLower p.1))) := by
    show (if excl ≠ [] ∧ l ≠ [] then _ else l) = _
    by_cases hex : excl ≠ [] ∧ l ≠ []
    · rw [if_pos hex]
    · rw [if_neg hex]
      push_neg at hex
      by_cases he : excl = []
      · subst he
        simp
      · rw [hex he]
        simp
  refine ⟨hfe, fun hfil => ?_⟩
  rw [draw_lang_card_pairs]
  have hpost : postRows (some excl) l = [("No Data", 0)] := by
    rw [postRows, hfe, hfil]
    simp
  have heff : effTotal (some excl) l = 1 := by
    rw [effTotal, hpost]
    simp [sumCounts]
  rw [hpost, heff]
  norm_num [pairRows]

/-- Witness for C6: excluding `"Python"` removes the entry named `"python"`
(case-insensitive match), emptying the list and producing the placeholder
render. -/
theorem C6_exclusion_filter_witness :
    draw_lang_card ⟨toEntries [("python", 1)]⟩ "Default" none (some ["Python"])
      = .ok { width := 300, height := 85, theme := themeResolve "Default" none,
              rows := [{ name := "No Data", pct := 0, fillWidth := 0 }] } :=
  (C6_exclusion_filter [("python", 1)] ["Python"] "Default" none).2 (by decide)

theorem sum_nonneg_all_zero (l : List Int) (h : ∀ x ∈ l, 0 ≤ x)
    (hs : l.sum = 0) : ∀ x ∈ l, x = 0 := by
  induction l with
  | nil => simp
  | cons a rest ih =>
      have ha : 0 ≤ a := h a (by simp)
      have hrest : ∀ y ∈ rest, 0 ≤ y := fun y hy => h y (by simp [hy])
      have hsum : 0 ≤ rest.sum := List.sum_nonneg hrest
      rw [List.sum_cons] at hs
      have ha0 : a = 0 := by omega
      have hr0 : rest.sum = 0 := by omega
      intro x hx
      rcases List.mem_cons.mp hx with h1 | h1
      · omega
      · exact ih hrest hr0 x h1

theorem sumCounts_cast (l : List (String × Int)) :
    ((sumCounts l : Int) : ℚ) = (l.map fun p => ((p.2 : Int) : ℚ)).sum := by
  induction l with
  | nil => simp [sumCounts]
  | cons p rest ih =>
      have : sumCounts (p :: rest) = p.2 + sumCounts rest := by
        simp [sumCounts]
      rw [this]
      push_cast
      rw [ih]
      simp

theorem pairRows_pct_sum (t : Int) (l : List (String × Int)) (ht : t ≠ 0)
    (hsum : sumCounts l = t) :
    ((pairRows t l).map fun r => r.pct).sum = 100 := by
  have h1 : ((pairRows t l).map fun r => r.pct)
      = l.map fun p => ((p.2 : Int) : ℚ) * (100 / (t : ℚ)) := by
    rw [pairRows, List.map_map]
    refine List.map_congr_left fun p _ => ?_
    show ((p.2 : ℚ) / (t : ℚ)) * 100 = ((p.2 : Int) : ℚ) * (100 / (t : ℚ))
    ring
  rw [h1, List.sum_map_mul_right, ← sumCounts_cast, hsum]
  have ht' : (t : ℚ) ≠ 0 := Int.cast_ne_zero.mpr ht
  field_simp

/-- C7: with no exclusion list and a non-empty list of non-negative counts,
the rendered rows carry percentage `count / total * 100` with divisor
`total` replaced by 1 when it is 0 (no division by zero); the percentages
sum to exactly 100 when the total is positive, and every row renders at 0%
when the total is 0. -/
theorem C7_percentages (l : List (String × Int)) (th : String)
    (cc : Option (List (String × String)))
    (hnn : ∀ p ∈ l, 0 ≤ p.2) (hne : l ≠ []) :
    ∃ svg, draw_lang_card ⟨toEntries l⟩ th cc none = .ok svg
      ∧ svg.rows = pairRows (if sumCounts l = 0 then 1 else sumCounts l) l
      ∧ (0 < sumCounts l → ((svg.rows.map fun r => r.pct).sum = 100))
      ∧ (sumCounts l = 0 → ∀ r ∈ svg.rows, r.pct = 0) := by
  have hpost : postRows none l = l := by
    simp [postRows, pyFilterPairs, hne]
  have heff : effTotal none l = if sumCounts l = 0 then 1 else sumCounts l := by
    rw [effTotal, hpost]
  refine ⟨_, draw_lang_card_pairs l th cc none, ?_, ?_, ?_⟩
  · dsimp only
    rw [hpost, heff]
  · intro hpos
    dsimp only
    rw [hpost, heff, if_neg (by omega : ¬ sumCounts l = 0)]
    exact pairRows_pct_sum (sumCounts l) l (by omega) rfl
  · intro h0
    dsimp only
    rw [hpost, heff, if_pos h0]
    intro r hr
    rw [pairRows] at hr
    obtain ⟨p, hp, rfl⟩ := List.mem_map.mp hr
    have hz : p.2 = 0 := by
      have hmem : p.2 ∈ l.map fun q => q.2 := List.mem_map_of_mem _ hp
      exact sum_nonneg_all_zero (l.map fun q => q.2)
        (by
          intro x hx
          obtain ⟨q, hq, rfl⟩ := List.mem_map.mp hx
          exact hnn q hq)
        (by simpa [sumCounts] using h0) p.2 hmem
    simp [hz]

/-- Witness for C7: the two-language example list has non-negative counts,
and its render's percentages (200/3 and 100/3) sum to exactly 100. -/
theorem C7_percentages_witness :
    ∃ svg, draw_lang_card ⟨toEntries [("Go", 2), ("Python", 1)]⟩ "Default" none none
        = .ok svg
      ∧ svg.rows = pairRows
          (if sumCounts [("Go", 2), ("Python", 1)] = 0 then 1
            else sumCounts [("Go", 2), ("Python", 1)]) [("Go", 2), ("Python", 1)]
      ∧ (0 < sumCounts [("Go", 2), ("Python", 1)] →
          ((svg.rows.map fun r => r.pct).sum = 100))
      ∧ (sumCounts [("Go", 2), ("Python", 1)] = 0 → ∀ r ∈ svg.rows, r.pct = 0) :=
  C7_percentages [("Go", 2), ("Python", 1)] "Default" none (by decide) (by decide)

/-- C10: an empty input language list with no exclusion list supplied
already triggers the placeholder: the render succeeds with the single
`("No Data", 0)` row at 0% and height `40 + 35 + 10 = 85` — placeholder
substitution is not limited to lists emptied by exclusion. -/
theorem C10_empty_input_placeholder (th : String)
    (cc : Option (List (String × String))) :
    draw_lang_card ⟨[]⟩ th cc none
      = .ok { width := 300, height := 85, theme := themeResolve th cc,
              rows := [{ name := "No Data", pct := 0, fillWidth := 0 }] } := by
  show draw_lang_card ⟨toEntries []⟩ th cc none = _
  rw [draw_lang_card_pairs]
  norm_num [postRows, pyFilterPairs, effTotal, sumCounts, pairRows]

end GitCanvas
